import Mathlib

/-!
Verification of the per-guild voice session manager (`src/core/AudioManager.js`,
the unified manager that supersedes the legacy root `audioManager.js`).

The manager keeps independent `Map`s keyed by guild id: connections, players,
current streams, volumes, ffmpeg subprocesses, and listener registrations.
We embed that state shallowly:

* a JS `Map` keyed by guild id becomes `MapG α := GuildId → Option α`;
* an `AudioPlayer` state becomes the inductive `PlayerState` (the non-idle
  states carry the attached `AudioResource`, exactly as in `@discordjs/voice`
  where `Buffering`/`Playing`/`Paused` states embed the resource and `Idle`
  does not; every resource is created with `inlineVolume: true`, so the
  resource's gain handle is always present and is modelled by a `volume`
  field);
* volumes are rationals (the JS code only ever clamps and steps by `0.1`);
* a spawned ffmpeg child process becomes a fresh pid drawn from a counter,
  and `kill` is modelled by membership in the `killed` list;
* a `VoiceConnection` is its join config (channel id) plus lifecycle status;
  `connection.destroy()` records the connection id in `destroyedConns`;
  the library-global registry consulted via `getVoiceConnection` is kept in
  sync with the manager's own `connections` map by the code, so the model
  identifies the two;
* `setTimeout(() => restartRadio(g), delay)` becomes a pending entry
  `(g, delay)` in `scheduledRestarts`;
* the environment-dependent parts of `joinVoiceChannel` (channel validation,
  permission check, and whether `entersState(connection, Ready, 10s)`
  resolves in time) are oracles in a `JoinEnv` record;
* a thrown error is an explicit error value (`Option Bool` / `JoinOutcome`),
  produced after the `catch` block's cleanup has run, mirroring the
  try/catch structure of the source.
-/

abbrev GuildId := Nat

abbrev Pid := Nat

/-- A JS `Map` keyed by guild id. -/
def MapG (α : Type) : Type := GuildId → Option α

def MapG.get {α : Type} (m : MapG α) (g : GuildId) : Option α := m g

def MapG.set {α : Type} (m : MapG α) (g : GuildId) (v : α) : MapG α :=
  fun x => if x = g then some v else m x

def MapG.del {α : Type} (m : MapG α) (g : GuildId) : MapG α :=
  fun x => if x = g then none else m x

def MapG.empty {α : Type} : MapG α := fun _ => none

/-- `VoiceConnectionStatus` of `@discordjs/voice`. -/
inductive ConnStatus
  | signalling
  | connecting
  | ready
  | disconnected
  | destroyed
deriving DecidableEq

/-- A voice connection: its identity (to tell a rebuilt connection from a
reused one), its `joinConfig.channelId`, and its lifecycle status. -/
structure VoiceConn where
  connId : Nat
  channelId : Nat
  status : ConnStatus
deriving DecidableEq

/-- An audio resource created with `inlineVolume: true`: the gain handle and
its current value. -/
structure AudioResource where
  volume : ℚ
deriving DecidableEq

/-- `AudioPlayerStatus` of `@discordjs/voice`; the non-idle states carry the
attached resource. -/
inductive PlayerState
  | idle
  | buffering (res : AudioResource)
  | playing (res : AudioResource)
  | paused (res : AudioResource)
deriving DecidableEq

/-- `STREAM_TYPES` of `src/utils/Constants.js`. -/
inductive StreamType
  | radio
  | quran
deriving DecidableEq

/-- The `StreamInfo` objects stored in `currentStreams` by `playRadio`
(`type: RADIO, url, stationInfo`) and `playQuran`
(`type: QURAN, url, surahName, reciterName`). `startTime` is not modelled
(wall-clock only, no claim depends on it). -/
structure StreamInfo where
  type : StreamType
  url : String
  surahName : String := ""
  reciterName : String := ""
  stationInfo : String := ""
deriving DecidableEq

/-- `AUDIO_CONFIG` of `src/utils/Constants.js` (the numeric part). -/
def AUDIO_CONFIG.DEFAULT_VOLUME : ℚ := 1

def AUDIO_CONFIG.MAX_VOLUME : ℚ := 2

def AUDIO_CONFIG.MIN_VOLUME : ℚ := 0

def AUDIO_CONFIG.VOLUME_STEP : ℚ := 1/10

def AUDIO_CONFIG.CONNECTION_TIMEOUT : Nat := 10000

def AUDIO_CONFIG.RETRY_DELAY : Nat := 5000

/-- The `AudioManager` singleton's state: the six guild-keyed maps of the
constructor plus the bookkeeping the shallow embedding needs (fresh pid and
connection-id counters, the set of pids sent a kill signal, the ids of
destroyed connections, and the pending `restartRadio` timers). -/
structure AMState where
  connections : MapG VoiceConn
  players : MapG PlayerState
  currentStreams : MapG StreamInfo
  volumes : MapG ℚ
  ffmpegProcesses : MapG Pid
  connectionListeners : MapG Unit
  playerListeners : MapG Unit
  killed : List Pid
  destroyedConns : List Nat
  scheduledRestarts : List (GuildId × Nat)
  nextPid : Pid
  nextConnId : Nat

/-- `getVolume`: stored volume, defaulting to `AUDIO_CONFIG.DEFAULT_VOLUME`. -/
def AudioManager.getVolume (s : AMState) (g : GuildId) : ℚ :=
  (s.volumes.get g).getD AUDIO_CONFIG.DEFAULT_VOLUME

/-- `isPlayerReady`: a player exists, is not `Idle`, and has a resource
(in the model the non-idle states always carry their resource). -/
def AudioManager.isPlayerReady : Option PlayerState → Bool
  | none => false
  | some .idle => false
  | some _ => true

/-- Replace the volume carried by the player's attached resource
(`resource.volume.setVolume(v)`). -/
def PlayerState.setResourceVolume : PlayerState → ℚ → PlayerState
  | .idle, _ => .idle
  | .buffering _, v => .buffering ⟨v⟩
  | .playing _, v => .playing ⟨v⟩
  | .paused _, v => .paused ⟨v⟩

/-- `setVolume`: clamp to `[MIN_VOLUME, MAX_VOLUME]`, record in the `volumes`
map, and if a ready player with a resource is attached, apply the clamped
value to the resource's gain handle. Returns `true` (the catch branch is
unreachable in the pure model). -/
def AudioManager.setVolume (s : AMState) (g : GuildId) (volume : ℚ) :
    AMState × Bool :=
  let clampedVolume :=
    max AUDIO_CONFIG.MIN_VOLUME (min AUDIO_CONFIG.MAX_VOLUME volume)
  let s1 := { s with volumes := s.volumes.set g clampedVolume }
  match s1.players.get g with
  | none => (s1, true)
  | some .idle => (s1, true)
  | some p =>
      ({ s1 with
          players := s1.players.set g (p.setResourceVolume clampedVolume) },
        true)

/-- `increaseVolume`: `setVolume(getVolume + VOLUME_STEP)`. -/
def AudioManager.increaseVolume (s : AMState) (g : GuildId) : AMState × Bool :=
  AudioManager.setVolume s g
    (AudioManager.getVolume s g + AUDIO_CONFIG.VOLUME_STEP)

/-- `decreaseVolume`: `setVolume(getVolume - VOLUME_STEP)`. -/
def AudioManager.decreaseVolume (s : AMState) (g : GuildId) : AMState × Bool :=
  AudioManager.setVolume s g
    (AudioManager.getVolume s g - AUDIO_CONFIG.VOLUME_STEP)

/-- `cleanupFFmpeg`: if the guild has a registered process that was not
already signalled, send the kill signal; then drop the map entry. (The
graceful-then-forced SIGTERM/SIGKILL escalation is collapsed into one
"signalled" event; only liveness of the handle matters to the claims.) -/
def AudioManager.cleanupFFmpeg (s : AMState) (g : GuildId) : AMState :=
  let killed1 :=
    match s.ffmpegProcesses.get g with
    | some pid => if pid ∈ s.killed then s.killed else pid :: s.killed
    | none => s.killed
  { s with killed := killed1, ffmpegProcesses := s.ffmpegProcesses.del g }

/-- `createFFmpegStream`: spawn one ffmpeg child process; the model hands out
a fresh pid. -/
def AudioManager.createFFmpegStream (s : AMState) : AMState × Pid :=
  ({ s with nextPid := s.nextPid + 1 }, s.nextPid)

/-- `cleanupEventListeners`: run and drop the stored unsubscribe callbacks
for both the connection and the player listeners. -/
def AudioManager.cleanupEventListeners (s : AMState) (g : GuildId) : AMState :=
  { s with
      connectionListeners := s.connectionListeners.del g,
      playerListeners := s.playerListeners.del g }

/-- `setupConnectionListeners`: register the Disconnected/Destroyed handlers
and store their cleanup functions. -/
def AudioManager.setupConnectionListeners (s : AMState) (g : GuildId) : AMState :=
  { s with connectionListeners := s.connectionListeners.set g () }

/-- `setupPlayerListeners`: register the Idle/Playing/Paused/error handlers
and store their cleanup functions. -/
def AudioManager.setupPlayerListeners (s : AMState) (g : GuildId) : AMState :=
  { s with playerListeners := s.playerListeners.set g () }

/-- `cleanupGuildResources`: kill ffmpeg, release listeners, destroy any
existing connection, and drop the connection/player/stream entries.
Volume (and guild settings) entries are deliberately kept. -/
def AudioManager.cleanupGuildResources (s : AMState) (g : GuildId) : AMState :=
  let s1 := AudioManager.cleanupFFmpeg s g
  let s2 := AudioManager.cleanupEventListeners s1 g
  let destroyed1 :=
    match s2.connections.get g with
    | some conn => conn.connId :: s2.destroyedConns
    | none => s2.destroyedConns
  { s2 with
      destroyedConns := destroyed1,
      connections := s2.connections.del g,
      players := s2.players.del g,
      currentStreams := s2.currentStreams.del g }

/-- `leaveVoiceChannel`: `cleanupGuildResources` inside a try, then `true`;
the `catch`/`false` branch is unreachable in the pure model because the
cleanup cannot throw. -/
def AudioManager.leaveVoiceChannel (s : AMState) (g : GuildId) : AMState × Bool :=
  (AudioManager.cleanupGuildResources s g, true)

/-- `hasConnection`: the guild has an entry in the `connections` map. -/
def AudioManager.hasConnection (s : AMState) (g : GuildId) : Bool :=
  (s.connections.get g).isSome

/-- `stopCurrentPlayback`: `player.stop()` (player returns to `Idle`,
dropping its resource), delete the stream entry, kill ffmpeg. Deleting the
stream entry before the player's Idle event can run is what makes an
explicit stop not trigger the idle-restart logic. -/
def AudioManager.stopCurrentPlayback (s : AMState) (g : GuildId) : AMState :=
  let players1 :=
    match s.players.get g with
    | some _ => s.players.set g .idle
    | none => s.players
  let s2 := { s with players := players1, currentStreams := s.currentStreams.del g }
  AudioManager.cleanupFFmpeg s2 g

/-- `playRadio`: requires a player (otherwise throws, and the catch block
runs `cleanupFFmpeg` before rethrowing, modelled by the `none` outcome);
stops current playback, spawns ffmpeg and registers it, creates a resource
carrying the stored volume, starts the player on it and records the radio
stream descriptor. -/
def AudioManager.playRadio (s : AMState) (g : GuildId)
    (streamUrl : String) (stationInfo : String) : AMState × Option Bool :=
  match s.players.get g with
  | none => (AudioManager.cleanupFFmpeg s g, none)
  | some _ =>
      let s1 := AudioManager.stopCurrentPlayback s g
      let spawned := AudioManager.createFFmpegStream s1
      let s2 := spawned.1
      let pid := spawned.2
      let s3 := { s2 with ffmpegProcesses := s2.ffmpegProcesses.set g pid }
      let res : AudioResource := ⟨AudioManager.getVolume s3 g⟩
      let s4 := { s3 with players := s3.players.set g (.playing res) }
      let s5 := { s4 with
        currentStreams := s4.currentStreams.set g
          { type := .radio, url := streamUrl, stationInfo := stationInfo } }
      (s5, some true)

/-- `playQuran`: same pipeline as `playRadio` but records a quran (catalog)
stream descriptor with surah and reciter names. -/
def AudioManager.playQuran (s : AMState) (g : GuildId)
    (audioUrl : String) (surahName : String) (reciterName : String) :
    AMState × Option Bool :=
  match s.players.get g with
  | none => (AudioManager.cleanupFFmpeg s g, none)
  | some _ =>
      let s1 := AudioManager.stopCurrentPlayback s g
      let spawned := AudioManager.createFFmpegStream s1
      let s2 := spawned.1
      let pid := spawned.2
      let s3 := { s2 with ffmpegProcesses := s2.ffmpegProcesses.set g pid }
      let res : AudioResource := ⟨AudioManager.getVolume s3 g⟩
      let s4 := { s3 with players := s3.players.set g (.playing res) }
      let s5 := { s4 with
        currentStreams := s4.currentStreams.set g
          { type := .quran, url := audioUrl, surahName := surahName,
            reciterName := reciterName } }
      (s5, some true)

/-- A play request: the spec's `playStream` dispatches to `playRadio` or
`playQuran` according to the descriptor tag. -/
inductive StreamReq
  | radio (url stationInfo : String)
  | quran (url surahName reciterName : String)

/-- The spec's `playStream(tenantId, url, descriptor)`: the union of the
two play entry points. -/
def AudioManager.playStream (s : AMState) (g : GuildId) :
    StreamReq → AMState × Option Bool
  | .radio u si => AudioManager.playRadio s g u si
  | .quran u sn rn => AudioManager.playQuran s g u sn rn

/-- `restartRadio`: if the guild's current stream is still a radio stream,
replay the same url (a failure of that replay is swallowed; in the pure
model the error state is kept either way). -/
def AudioManager.restartRadio (s : AMState) (g : GuildId) : AMState :=
  match s.currentStreams.get g with
  | some st =>
      if st.type = .radio then
        (AudioManager.playRadio s g st.url st.stationInfo).1
      else s
  | none => s

/-- The player's `Idle` listener of `setupPlayerListeners`: radio streams
schedule `restartRadio` after 1000 ms; quran streams drop the stream entry
and reclaim ffmpeg; with no stream entry (explicit stop already ran)
nothing happens. -/
def AudioManager.idleListener (s : AMState) (g : GuildId) : AMState :=
  match s.currentStreams.get g with
  | some st =>
      match st.type with
      | .radio => { s with scheduledRestarts := (g, 1000) :: s.scheduledRestarts }
      | .quran =>
          AudioManager.cleanupFFmpeg
            { s with currentStreams := s.currentStreams.del g } g
  | none => s

/-- `pauseAudio`: only from `Playing`, through the `isPlayerReady` guard;
every other case returns `false` with no state change. -/
def AudioManager.pauseAudio (s : AMState) (g : GuildId) : AMState × Bool :=
  let player := s.players.get g
  if AudioManager.isPlayerReady player = false then (s, false)
  else
    match player with
    | some (.playing res) =>
        ({ s with players := s.players.set g (.paused res) }, true)
    | _ => (s, false)

/-- `resumeAudio`: only from `Paused`, through the `isPlayerReady` guard;
every other case returns `false` with no state change. -/
def AudioManager.resumeAudio (s : AMState) (g : GuildId) : AMState × Bool :=
  let player := s.players.get g
  if AudioManager.isPlayerReady player = false then (s, false)
  else
    match player with
    | some (.paused res) =>
        ({ s with players := s.players.set g (.playing res) }, true)
    | _ => (s, false)

/-- `stopAudio`: succeeds exactly from `Playing` or `Paused`, in which case
it runs `stopCurrentPlayback`; otherwise `false` with no state change. -/
def AudioManager.stopAudio (s : AMState) (g : GuildId) : AMState × Bool :=
  match s.players.get g with
  | none => (s, false)
  | some p =>
      let wasPlaying :=
        match p with
        | .playing _ => true
        | .paused _ => true
        | _ => false
      if wasPlaying then (AudioManager.stopCurrentPlayback s g, true)
      else (s, false)

/-- The environment-dependent outcomes inside `joinVoiceChannel`: whether the
target channel resolves to a voice channel (`channel && channel.type === 2`),
the two permission bits, and whether `entersState(connection, Ready, 10s)`
resolves within the timeout. -/
structure JoinEnv where
  channelIsVoice : Bool
  permConnect : Bool
  permSpeak : Bool
  becomesReady : Bool
deriving DecidableEq

/-- The errors `joinVoiceChannel` can throw. -/
inductive JoinError
  | invalidChannel
  | permissionDenied
  | connectionTimeout
deriving DecidableEq

/-- Result of `joinVoiceChannel`: the (possibly reused) connection's id, or
the thrown error. -/
inductive JoinOutcome
  | ok (connId : Nat)
  | err (e : JoinError)
deriving DecidableEq

/-- The fresh-connection tail of `joinVoiceChannel`: build the connection,
subscribe a new player, store both, wait for Ready; on timeout the catch
block rolls everything back and rethrows; on success the listeners are
registered. -/
def AudioManager.freshJoin (env : JoinEnv) (s : AMState) (g : GuildId)
    (channelId : Nat) : AMState × JoinOutcome :=
  let conn : VoiceConn :=
    { connId := s.nextConnId, channelId := channelId, status := .signalling }
  let s1 := { s with
    nextConnId := s.nextConnId + 1,
    connections := s.connections.set g conn,
    players := s.players.set g .idle }
  if env.becomesReady then
    let s2 := { s1 with
      connections := s1.connections.set g { conn with status := .ready } }
    let s3 :=
      AudioManager.setupPlayerListeners
        (AudioManager.setupConnectionListeners s2 g) g
    (s3, .ok conn.connId)
  else
    (AudioManager.cleanupGuildResources s1 g, .err .connectionTimeout)

/-- `joinVoiceChannel`: validate the channel, check Connect and Speak, reuse
an existing healthy connection to the same channel (creating and wiring a
player if one is missing), otherwise clean up and build a fresh connection.
Every thrown error passes through the catch block's
`cleanupGuildResources` before being rethrown. -/
def AudioManager.joinVoiceChannel (env : JoinEnv) (s : AMState) (g : GuildId)
    (channelId : Nat) : AMState × JoinOutcome :=
  if env.channelIsVoice = false then
    (AudioManager.cleanupGuildResources s g, .err .invalidChannel)
  else if (env.permConnect && env.permSpeak) = false then
    (AudioManager.cleanupGuildResources s g, .err .permissionDenied)
  else
    match s.connections.get g with
    | some existingConnection =>
        if existingConnection.channelId = channelId ∧
            existingConnection.status ≠ .destroyed ∧
            existingConnection.status ≠ .disconnected then
          match s.players.get g with
          | some _ => (s, .ok existingConnection.connId)
          | none =>
              let s1 := { s with players := s.players.set g .idle }
              (AudioManager.setupPlayerListeners s1 g,
                .ok existingConnection.connId)
        else
          AudioManager.freshJoin env (AudioManager.cleanupGuildResources s g)
            g channelId
    | none =>
        AudioManager.freshJoin env (AudioManager.cleanupGuildResources s g)
          g channelId

/-- The reuse guard of `joinVoiceChannel` as a boolean: an existing
connection whose join config points at the requested channel and whose
status is neither Destroyed nor Disconnected. -/
def AudioManager.reusableConnection (s : AMState) (g : GuildId)
    (channelId : Nat) : Bool :=
  match s.connections.get g with
  | some conn =>
      decide (conn.channelId = channelId) &&
      decide (conn.status ≠ ConnStatus.destroyed) &&
      decide (conn.status ≠ ConnStatus.disconnected)
  | none => false

/-- `shutdown`: run `cleanupGuildResources` for every connected guild (the
parameter `gs` stands for `connections.keys()`, which a function-backed map
cannot enumerate), then `clear()` every map — including `volumes`. -/
def AudioManager.shutdown (gs : List GuildId) (s : AMState) : AMState :=
  let s1 := gs.foldl AudioManager.cleanupGuildResources s
  { s1 with
      connections := MapG.empty,
      players := MapG.empty,
      currentStreams := MapG.empty,
      ffmpegProcesses := MapG.empty,
      volumes := MapG.empty,
      connectionListeners := MapG.empty,
      playerListeners := MapG.empty }

/-- A manager state with every map empty (the freshly constructed
singleton). -/
def emptyState : AMState :=
  { connections := MapG.empty
    players := MapG.empty
    currentStreams := MapG.empty
    volumes := MapG.empty
    ffmpegProcesses := MapG.empty
    connectionListeners := MapG.empty
    playerListeners := MapG.empty
    killed := []
    destroyedConns := []
    scheduledRestarts := []
    nextPid := 0
    nextConnId := 0 }

def demoUrl : String := "stream-a"

def demoStation : String := "station-a"

def demoSurah : String := "surah-a"

def demoReciter : String := "reciter-a"

/-- A state where guild 1 is connected and playing a radio stream. -/
def demoPlaying : AMState :=
  { emptyState with
      connections := MapG.empty.set 1 ⟨7, 5, .ready⟩
      players := MapG.empty.set 1 (.playing ⟨1⟩)
      currentStreams := MapG.empty.set 1
        { type := .radio, url := demoUrl, stationInfo := demoStation }
      ffmpegProcesses := MapG.empty.set 1 3
      nextPid := 4
      nextConnId := 8 }

/-- A state where guild 1 has a stored volume and a live session. -/
def demoVolume : AMState :=
  { emptyState with
      connections := MapG.empty.set 1 ⟨0, 5, .ready⟩
      volumes := MapG.empty.set 1 (3/2)
      nextConnId := 1 }

/-- A state where guild 1 sits exactly at the volume cap. -/
def demoVolMax : AMState :=
  { emptyState with volumes := MapG.empty.set 1 2 }

/-- An environment where validation, permissions and readiness all succeed. -/
def envGood : JoinEnv :=
  { channelIsVoice := true, permConnect := true, permSpeak := true,
    becomesReady := true }

/-! ## Basic map lemmas -/

@[simp]
theorem MapG.get_set_self {α : Type} (m : MapG α) (g : GuildId) (v : α) :
    (m.set g v).get g = some v := by
  simp [MapG.get, MapG.set]

theorem MapG.get_set_ne {α : Type} (m : MapG α) (g x : GuildId) (v : α)
    (h : x ≠ g) : (m.set g v).get x = m.get x := by
  simp [MapG.get, MapG.set, h]

@[simp]
theorem MapG.get_del_self {α : Type} (m : MapG α) (g : GuildId) :
    (m.del g).get g = none := by
  simp [MapG.get, MapG.del]

theorem MapG.get_del_ne {α : Type} (m : MapG α) (g x : GuildId)
    (h : x ≠ g) : (m.del g).get x = m.get x := by
  simp [MapG.get, MapG.del, h]

@[simp]
theorem MapG.del_del {α : Type} (m : MapG α) (g : GuildId) :
    (m.del g).del g = m.del g := by
  funext x
  by_cases h : x = g <;> simp [MapG.del, h]

@[simp]
theorem MapG.del_set_self {α : Type} (m : MapG α) (g : GuildId) (v : α) :
    ((m.set g v).del g) = m.del g := by
  funext x
  by_cases h : x = g <;> simp [MapG.del, MapG.set, h]

@[simp]
theorem MapG.get_empty {α : Type} (g : GuildId) :
    (MapG.empty (α := α)).get g = none := rfl

/-! ## Cleanup helper lemmas -/

/-- `cleanupFFmpeg` does not touch the other components. -/
theorem cleanupFFmpeg_frame (s : AMState) (g : GuildId) :
    (AudioManager.cleanupFFmpeg s g).connections = s.connections ∧
    (AudioManager.cleanupFFmpeg s g).players = s.players ∧
    (AudioManager.cleanupFFmpeg s g).currentStreams = s.currentStreams ∧
    (AudioManager.cleanupFFmpeg s g).volumes = s.volumes ∧
    (AudioManager.cleanupFFmpeg s g).connectionListeners = s.connectionListeners ∧
    (AudioManager.cleanupFFmpeg s g).playerListeners = s.playerListeners ∧
    (AudioManager.cleanupFFmpeg s g).nextPid = s.nextPid ∧
    (AudioManager.cleanupFFmpeg s g).scheduledRestarts = s.scheduledRestarts ∧
    (AudioManager.cleanupFFmpeg s g).destroyedConns = s.destroyedConns := by
  refine ⟨rfl, rfl, rfl, rfl, rfl, rfl, rfl, rfl, rfl⟩

/-- `cleanupFFmpeg` empties the guild's subprocess slot. -/
@[simp]
theorem cleanupFFmpeg_ffmpeg_get (s : AMState) (g : GuildId) :
    (AudioManager.cleanupFFmpeg s g).ffmpegProcesses.get g = none := by
  simp [AudioManager.cleanupFFmpeg]

/-- A registered subprocess is in the killed list after `cleanupFFmpeg`. -/
theorem cleanupFFmpeg_kills (s : AMState) (g : GuildId) (pid : Pid)
    (h : s.ffmpegProcesses.get g = some pid) :
    pid ∈ (AudioManager.cleanupFFmpeg s g).killed := by
  simp only [AudioManager.cleanupFFmpeg, h]
  by_cases hk : pid ∈ s.killed <;> simp [hk]

/-- The killed list only grows through `cleanupFFmpeg`. -/
theorem cleanupFFmpeg_killed_mono (s : AMState) (g : GuildId) (pid : Pid)
    (h : pid ∈ s.killed) :
    pid ∈ (AudioManager.cleanupFFmpeg s g).killed := by
  simp only [AudioManager.cleanupFFmpeg]
  rcases hp : s.ffmpegProcesses.get g with _ | q
  · simpa using h
  · by_cases hk : q ∈ s.killed <;> simp [hk, h]

/-- What `cleanupGuildResources` leaves for the guild: nothing but the
volume entry (and the guild settings, not modelled). -/
theorem cleanupGuildResources_clears (s : AMState) (g : GuildId) :
    (AudioManager.cleanupGuildResources s g).connections.get g = none ∧
    (AudioManager.cleanupGuildResources s g).players.get g = none ∧
    (AudioManager.cleanupGuildResources s g).currentStreams.get g = none ∧
    (AudioManager.cleanupGuildResources s g).ffmpegProcesses.get g = none ∧
    (AudioManager.cleanupGuildResources s g).connectionListeners.get g = none ∧
    (AudioManager.cleanupGuildResources s g).playerListeners.get g = none ∧
    (AudioManager.cleanupGuildResources s g).volumes = s.volumes := by
  simp [AudioManager.cleanupGuildResources, AudioManager.cleanupEventListeners,
    AudioManager.cleanupFFmpeg]

/-! ## Volume helper lemmas -/

/-- `setVolume` always succeeds and always records the clamped value. -/
theorem setVolume_spec (s : AMState) (g : GuildId) (v : ℚ) :
    (AudioManager.setVolume s g v).2 = true ∧
    (AudioManager.setVolume s g v).1.volumes.get g = some (max 0 (min 2 v)) := by
  rcases h : s.players.get g with _ | p
  · simp [AudioManager.setVolume, AUDIO_CONFIG.MIN_VOLUME, AUDIO_CONFIG.MAX_VOLUME, h]
  · cases p <;>
      simp [AudioManager.setVolume, AUDIO_CONFIG.MIN_VOLUME, AUDIO_CONFIG.MAX_VOLUME, h]

/-- Clamping a value one step above a nonnegative current volume equals the
`min` with the cap. -/
theorem clamp_add_step (c : ℚ) (h : 0 ≤ c) :
    max 0 (min 2 (c + 1/10)) = min (c + 1/10) 2 := by
  rw [min_comm]
  exact max_eq_right (le_min (by linarith) (by norm_num))

/-- Clamping a value one step below a capped current volume equals the
`max` with the floor. -/
theorem clamp_sub_step (c : ℚ) (h : c ≤ 2) :
    max 0 (min 2 (c - 1/10)) = max (c - 1/10) 0 := by
  rw [min_eq_right (by linarith), max_comm]

/-! ## C5, C6, C8, C10 -/

/-- C5: for every tenant, `pauseAudio` returns true and moves the player to
Paused exactly when the player state is Playing; `resumeAudio` returns true
and moves back to Playing exactly from Paused; `stopAudio` returns true
exactly from Playing or Paused; in every other case (including no player at
all) each operation returns a clean `false` and performs no state change
(the model is a total function, so no case throws). -/
theorem playback_controls_precondition (s : AMState) (g : GuildId) :
    ((AudioManager.pauseAudio s g).2 = true ↔
      ∃ res, s.players.get g = some (.playing res)) ∧
    ((AudioManager.pauseAudio s g).2 = false →
      (AudioManager.pauseAudio s g).1 = s) ∧
    (∀ res, s.players.get g = some (.playing res) →
      (AudioManager.pauseAudio s g).1.players.get g = some (.paused res)) ∧
    ((AudioManager.resumeAudio s g).2 = true ↔
      ∃ res, s.players.get g = some (.paused res)) ∧
    ((AudioManager.resumeAudio s g).2 = false →
      (AudioManager.resumeAudio s g).1 = s) ∧
    (∀ res, s.players.get g = some (.paused res) →
      (AudioManager.resumeAudio s g).1.players.get g = some (.playing res)) ∧
    ((AudioManager.stopAudio s g).2 = true ↔
      (∃ res, s.players.get g = some (.playing res)) ∨
      (∃ res, s.players.get g = some (.paused res))) ∧
    ((AudioManager.stopAudio s g).2 = false →
      (AudioManager.stopAudio s g).1 = s) := by
  rcases h : s.players.get g with _ | p
  · simp [AudioManager.pauseAudio, AudioManager.resumeAudio,
      AudioManager.stopAudio, AudioManager.isPlayerReady, h]
  · cases p <;>
      simp [AudioManager.pauseAudio, AudioManager.resumeAudio,
        AudioManager.stopAudio, AudioManager.isPlayerReady, h]

/-- C6: `setVolume` clamps the requested value into `[0.0, 2.0]`, always
records the clamped value in the per-tenant volume map (also when no ready
player or resource is attached), returns true, and the recorded value is
what gets attached to the resource of the next stream the tenant starts. -/
theorem setVolume_clamps_and_records (s : AMState) (g : GuildId) (v : ℚ) :
    (AudioManager.setVolume s g v).2 = true ∧
    (AudioManager.setVolume s g v).1.volumes.get g = some (max 0 (min 2 v)) ∧
    AudioManager.getVolume (AudioManager.setVolume s g v).1 g = max 0 (min 2 v) ∧
    (∀ u si, (s.players.get g).isSome = true →
      (AudioManager.playRadio (AudioManager.setVolume s g v).1 g u si).1.players.get g =
        some (.playing ⟨max 0 (min 2 v)⟩)) := by
  obtain ⟨hret, hrec⟩ := setVolume_spec s g v
  refine ⟨hret, hrec, ?_, ?_⟩
  · rw [AudioManager.getVolume, hrec]
    rfl
  · intro u si hp
    rcases h : s.players.get g with _ | p
    · rw [h] at hp
      simp at hp
    · cases p <;>
        simp [AudioManager.setVolume, AudioManager.playRadio,
          AudioManager.stopCurrentPlayback, AudioManager.cleanupFFmpeg,
          AudioManager.createFFmpegStream, AudioManager.getVolume,
          PlayerState.setResourceVolume, AUDIO_CONFIG.MIN_VOLUME,
          AUDIO_CONFIG.MAX_VOLUME, h]

/-- C8: from a Playing player with a stream descriptor, `pauseAudio`
followed immediately by `resumeAudio` returns the player to Playing (same
resource) and leaves the tenant's `currentStreams` entry unchanged. -/
theorem pause_resume_roundtrip (s : AMState) (g : GuildId)
    (res : AudioResource) (st : StreamInfo)
    (hp : s.players.get g = some (.playing res))
    (hs : s.currentStreams.get g = some st) :
    (AudioManager.pauseAudio s g).2 = true ∧
    (AudioManager.resumeAudio (AudioManager.pauseAudio s g).1 g).2 = true ∧
    (AudioManager.resumeAudio (AudioManager.pauseAudio s g).1 g).1.players.get g =
      some (.playing res) ∧
    (AudioManager.resumeAudio (AudioManager.pauseAudio s g).1 g).1.currentStreams.get g =
      some st := by
  simp [AudioManager.pauseAudio, AudioManager.resumeAudio,
    AudioManager.isPlayerReady, hp, hs]

/-- Witness for C8: the round trip at a concrete playing state. -/
theorem pause_resume_roundtrip_witness :
    (AudioManager.pauseAudio demoPlaying 1).2 = true ∧
    (AudioManager.resumeAudio (AudioManager.pauseAudio demoPlaying 1).1 1).2 = true ∧
    (AudioManager.resumeAudio (AudioManager.pauseAudio demoPlaying 1).1 1).1.players.get 1 =
      some (.playing ⟨1⟩) ∧
    (AudioManager.resumeAudio (AudioManager.pauseAudio demoPlaying 1).1 1).1.currentStreams.get 1 =
      some { type := .radio, url := demoUrl, stationInfo := demoStation } :=
  pause_resume_roundtrip demoPlaying 1 ⟨1⟩
    { type := .radio, url := demoUrl, stationInfo := demoStation } rfl rfl

/-- C10: with the stored volume in its invariant range, `increaseVolume`
stores `min(current + 0.1, 2.0)` and `decreaseVolume` stores
`max(current - 0.1, 0.0)`, both returning true; the current volume defaults
to 1.0 when never set; and increasing at the 2.0 cap returns true and
leaves the stored volume at exactly 2.0. -/
theorem volume_step_min_max (s : AMState) (g : GuildId)
    (h0 : 0 ≤ AudioManager.getVolume s g)
    (h2 : AudioManager.getVolume s g ≤ 2) :
    (AudioManager.increaseVolume s g).2 = true ∧
    (AudioManager.increaseVolume s g).1.volumes.get g =
      some (min (AudioManager.getVolume s g + 1/10) 2) ∧
    (AudioManager.decreaseVolume s g).2 = true ∧
    (AudioManager.decreaseVolume s g).1.volumes.get g =
      some (max (AudioManager.getVolume s g - 1/10) 0) ∧
    (s.volumes.get g = none → AudioManager.getVolume s g = 1) ∧
    (AudioManager.getVolume s g = 2 →
      (AudioManager.increaseVolume s g).1.volumes.get g = some 2) := by
  have hi := setVolume_spec s g
    (AudioManager.getVolume s g + AUDIO_CONFIG.VOLUME_STEP)
  have hd := setVolume_spec s g
    (AudioManager.getVolume s g - AUDIO_CONFIG.VOLUME_STEP)
  simp only [AUDIO_CONFIG.VOLUME_STEP] at hi hd
  refine ⟨hi.1, ?_, hd.1, ?_, ?_, ?_⟩
  · rw [AudioManager.increaseVolume]
    simp only [AUDIO_CONFIG.VOLUME_STEP]
    rw [hi.2, clamp_add_step _ h0]
  · rw [AudioManager.decreaseVolume]
    simp only [AUDIO_CONFIG.VOLUME_STEP]
    rw [hd.2, clamp_sub_step _ h2]
  · intro hnone
    simp [AudioManager.getVolume, hnone, AUDIO_CONFIG.DEFAULT_VOLUME]
  · intro heq
    rw [AudioManager.increaseVolume]
    simp only [AUDIO_CONFIG.VOLUME_STEP]
    rw [hi.2, clamp_add_step _ h0, heq, min_eq_right (by norm_num)]

/-- Witness for C10: stepping at the 2.0 cap in a concrete state. -/
theorem volume_step_min_max_witness :
    (AudioManager.increaseVolume demoVolMax 1).2 = true ∧
    (AudioManager.increaseVolume demoVolMax 1).1.volumes.get 1 =
      some (min (AudioManager.getVolume demoVolMax 1 + 1/10) 2) ∧
    (AudioManager.decreaseVolume demoVolMax 1).2 = true ∧
    (AudioManager.decreaseVolume demoVolMax 1).1.volumes.get 1 =
      some (max (AudioManager.getVolume demoVolMax 1 - 1/10) 0) ∧
    (demoVolMax.volumes.get 1 = none → AudioManager.getVolume demoVolMax 1 = 1) ∧
    (AudioManager.getVolume demoVolMax 1 = 2 →
      (AudioManager.increaseVolume demoVolMax 1).1.volumes.get 1 = some 2) :=
  volume_step_min_max demoVolMax 1
    (by norm_num [AudioManager.getVolume, demoVolMax, emptyState,
      MapG.get, MapG.set, AUDIO_CONFIG.DEFAULT_VOLUME])
    (by norm_num [AudioManager.getVolume, demoVolMax, emptyState,
      MapG.get, MapG.set, AUDIO_CONFIG.DEFAULT_VOLUME])

/-! ## Subprocess lifecycle: C1 -/

/-- `playRadio` with a player present: registers a freshly spawned pid,
advances the pid counter, leaves a live player, and any previously
registered subprocess ends up signalled. -/
theorem playRadio_spawns (s : AMState) (g : GuildId) (u si : String)
    (h : (s.players.get g).isSome = true) :
    (AudioManager.playRadio s g u si).1.ffmpegProcesses.get g = some s.nextPid ∧
    (AudioManager.playRadio s g u si).1.nextPid = s.nextPid + 1 ∧
    ((AudioManager.playRadio s g u si).1.players.get g).isSome = true ∧
    (∀ p, s.ffmpegProcesses.get g = some p →
      p ∈ (AudioManager.playRadio s g u si).1.killed) := by
  rcases hp : s.players.get g with _ | pl
  · rw [hp] at h
    simp at h
  · refine ⟨?_, ?_, ?_, ?_⟩
    · simp [AudioManager.playRadio, AudioManager.stopCurrentPlayback,
        AudioManager.cleanupFFmpeg, AudioManager.createFFmpegStream, hp]
    · simp [AudioManager.playRadio, AudioManager.stopCurrentPlayback,
        AudioManager.cleanupFFmpeg, AudioManager.createFFmpegStream, hp]
    · simp [AudioManager.playRadio, AudioManager.stopCurrentPlayback,
        AudioManager.cleanupFFmpeg, AudioManager.createFFmpegStream, hp]
    · intro q hq
      simp [AudioManager.playRadio, AudioManager.stopCurrentPlayback,
        AudioManager.cleanupFFmpeg, AudioManager.createFFmpegStream, hp, hq]
      by_cases hk : q ∈ s.killed <;> simp [hk]

/-- `playQuran` with a player present: same subprocess bookkeeping as
`playRadio`. -/
theorem playQuran_spawns (s : AMState) (g : GuildId) (u sn rn : String)
    (h : (s.players.get g).isSome = true) :
    (AudioManager.playQuran s g u sn rn).1.ffmpegProcesses.get g = some s.nextPid ∧
    (AudioManager.playQuran s g u sn rn).1.nextPid = s.nextPid + 1 ∧
    ((AudioManager.playQuran s g u sn rn).1.players.get g).isSome = true ∧
    (∀ p, s.ffmpegProcesses.get g = some p →
      p ∈ (AudioManager.playQuran s g u sn rn).1.killed) := by
  rcases hp : s.players.get g with _ | pl
  · rw [hp] at h
    simp at h
  · refine ⟨?_, ?_, ?_, ?_⟩
    · simp [AudioManager.playQuran, AudioManager.stopCurrentPlayback,
        AudioManager.cleanupFFmpeg, AudioManager.createFFmpegStream, hp]
    · simp [AudioManager.playQuran, AudioManager.stopCurrentPlayback,
        AudioManager.cleanupFFmpeg, AudioManager.createFFmpegStream, hp]
    · simp [AudioManager.playQuran, AudioManager.stopCurrentPlayback,
        AudioManager.cleanupFFmpeg, AudioManager.createFFmpegStream, hp]
    · intro q hq
      simp [AudioManager.playQuran, AudioManager.stopCurrentPlayback,
        AudioManager.cleanupFFmpeg, AudioManager.createFFmpegStream, hp, hq]
      by_cases hk : q ∈ s.killed <;> simp [hk]

/-- `playStream` with a player present: the subprocess bookkeeping common
to both descriptor tags. -/
theorem playStream_spawns (s : AMState) (g : GuildId) (r : StreamReq)
    (h : (s.players.get g).isSome = true) :
    (AudioManager.playStream s g r).1.ffmpegProcesses.get g = some s.nextPid ∧
    (AudioManager.playStream s g r).1.nextPid = s.nextPid + 1 ∧
    ((AudioManager.playStream s g r).1.players.get g).isSome = true ∧
    (∀ p, s.ffmpegProcesses.get g = some p →
      p ∈ (AudioManager.playStream s g r).1.killed) := by
  cases r
  case radio u si => exact playRadio_spawns s g u si h
  case quran u sn rn => exact playQuran_spawns s g u sn rn h

/-- C1: at most one live transcoder subprocess per tenant — each
`playStream` (`playRadio`/`playQuran`) first stops and discards the
tenant's prior stream and subprocess before spawning and registering the
new one, so after two successive `playStream` calls exactly the second
call's subprocess is registered and the first call's subprocess has been
signalled. -/
theorem playStream_single_live_subprocess (s : AMState) (g : GuildId)
    (r1 r2 : StreamReq) (h : (s.players.get g).isSome = true) :
    ∃ p1 p2 : Pid,
      (AudioManager.playStream s g r1).1.ffmpegProcesses.get g = some p1 ∧
      (AudioManager.playStream (AudioManager.playStream s g r1).1 g
        r2).1.ffmpegProcesses.get g = some p2 ∧
      p1 ≠ p2 ∧
      p1 ∈ (AudioManager.playStream (AudioManager.playStream s g r1).1 g
        r2).1.killed := by
  obtain ⟨hf1, hn1, hp1, -⟩ := playStream_spawns s g r1 h
  obtain ⟨hf2, hn2, hp2, hk2⟩ := playStream_spawns _ g r2 hp1
  refine ⟨s.nextPid, (AudioManager.playStream s g r1).1.nextPid, hf1, hf2, ?_, ?_⟩
  · rw [hn1]
    exact Ne.symm (Nat.succ_ne_self s.nextPid)
  · exact hk2 _ hf1

/-- Witness for C1: two successive play calls (radio then quran) for
guild 1 of a concrete playing state. -/
theorem playStream_single_live_subprocess_witness :
    ∃ p1 p2 : Pid,
      (AudioManager.playStream demoPlaying 1
        (.radio demoUrl demoStation)).1.ffmpegProcesses.get 1 = some p1 ∧
      (AudioManager.playStream
        (AudioManager.playStream demoPlaying 1 (.radio demoUrl demoStation)).1 1
        (.quran demoUrl demoSurah demoReciter)).1.ffmpegProcesses.get 1 = some p2 ∧
      p1 ≠ p2 ∧
      p1 ∈ (AudioManager.playStream
        (AudioManager.playStream demoPlaying 1 (.radio demoUrl demoStation)).1 1
        (.quran demoUrl demoSurah demoReciter)).1.killed :=
  playStream_single_live_subprocess demoPlaying 1 (.radio demoUrl demoStation)
    (.quran demoUrl demoSurah demoReciter) rfl

/-! ## Join lifecycle: C2, C3 -/

@[simp]
theorem cleanupGuildResources_connections_get (s : AMState) (g : GuildId) :
    (AudioManager.cleanupGuildResources s g).connections.get g = none :=
  (cleanupGuildResources_clears s g).1

@[simp]
theorem cleanupGuildResources_players_get (s : AMState) (g : GuildId) :
    (AudioManager.cleanupGuildResources s g).players.get g = none :=
  (cleanupGuildResources_clears s g).2.1

@[simp]
theorem cleanupGuildResources_streams_get (s : AMState) (g : GuildId) :
    (AudioManager.cleanupGuildResources s g).currentStreams.get g = none :=
  (cleanupGuildResources_clears s g).2.2.1

@[simp]
theorem cleanupGuildResources_ffmpeg_get (s : AMState) (g : GuildId) :
    (AudioManager.cleanupGuildResources s g).ffmpegProcesses.get g = none :=
  (cleanupGuildResources_clears s g).2.2.2.1

@[simp]
theorem cleanupGuildResources_connListeners_get (s : AMState) (g : GuildId) :
    (AudioManager.cleanupGuildResources s g).connectionListeners.get g = none :=
  (cleanupGuildResources_clears s g).2.2.2.2.1

@[simp]
theorem cleanupGuildResources_playerListeners_get (s : AMState) (g : GuildId) :
    (AudioManager.cleanupGuildResources s g).playerListeners.get g = none :=
  (cleanupGuildResources_clears s g).2.2.2.2.2.1

@[simp]
theorem cleanupGuildResources_volumes (s : AMState) (g : GuildId) :
    (AudioManager.cleanupGuildResources s g).volumes = s.volumes :=
  (cleanupGuildResources_clears s g).2.2.2.2.2.2

@[simp]
theorem cleanupGuildResources_nextConnId (s : AMState) (g : GuildId) :
    (AudioManager.cleanupGuildResources s g).nextConnId = s.nextConnId := rfl

@[simp]
theorem cleanupGuildResources_nextPid (s : AMState) (g : GuildId) :
    (AudioManager.cleanupGuildResources s g).nextPid = s.nextPid := rfl

/-- Destroying a guild's resources records the destroyed connection id. -/
theorem cleanupGuildResources_destroys (s : AMState) (g : GuildId)
    (conn : VoiceConn) (h : s.connections.get g = some conn) :
    (AudioManager.cleanupGuildResources s g).destroyedConns =
      conn.connId :: s.destroyedConns := by
  simp [AudioManager.cleanupGuildResources, AudioManager.cleanupEventListeners,
    AudioManager.cleanupFFmpeg, h]

/-- `freshJoin` when the connection reaches Ready in time. -/
theorem freshJoin_ready (env : JoinEnv) (s : AMState) (g : GuildId) (c : Nat)
    (h : env.becomesReady = true) :
    (AudioManager.freshJoin env s g c).2 = .ok s.nextConnId ∧
    (AudioManager.freshJoin env s g c).1.connections.get g =
      some ⟨s.nextConnId, c, .ready⟩ ∧
    (AudioManager.freshJoin env s g c).1.players.get g = some .idle ∧
    (AudioManager.freshJoin env s g c).1.nextConnId = s.nextConnId + 1 ∧
    (AudioManager.freshJoin env s g c).1.destroyedConns = s.destroyedConns ∧
    (AudioManager.freshJoin env s g c).1.volumes = s.volumes := by
  simp [AudioManager.freshJoin, AudioManager.setupConnectionListeners,
    AudioManager.setupPlayerListeners, h]

/-- `freshJoin` on timeout: the thrown `connectionTimeout` passes through a
full rollback. -/
theorem freshJoin_timeout (env : JoinEnv) (s : AMState) (g : GuildId) (c : Nat)
    (h : env.becomesReady = false) :
    (AudioManager.freshJoin env s g c).2 = .err .connectionTimeout ∧
    (AudioManager.freshJoin env s g c).1.connections.get g = none ∧
    (AudioManager.freshJoin env s g c).1.players.get g = none ∧
    (AudioManager.freshJoin env s g c).1.currentStreams.get g = none ∧
    (AudioManager.freshJoin env s g c).1.ffmpegProcesses.get g = none ∧
    (AudioManager.freshJoin env s g c).1.connectionListeners.get g = none ∧
    (AudioManager.freshJoin env s g c).1.playerListeners.get g = none := by
  simp [AudioManager.freshJoin, h]

/-- `freshJoin` never leaves per-guild state behind on an error outcome. -/
theorem freshJoin_err_state (env : JoinEnv) (s0 : AMState) (g : GuildId)
    (c : Nat) (s2 : AMState) (e : JoinError)
    (heq : AudioManager.freshJoin env s0 g c = (s2, .err e)) :
    s2.connections.get g = none ∧ s2.players.get g = none ∧
    s2.currentStreams.get g = none ∧ s2.ffmpegProcesses.get g = none ∧
    s2.connectionListeners.get g = none ∧ s2.playerListeners.get g = none := by
  cases hbr : env.becomesReady
  case false =>
    have hfst : (AudioManager.freshJoin env s0 g c).1 = s2 :=
      congrArg Prod.fst heq
    rw [← hfst]
    exact (freshJoin_timeout env s0 g c hbr).2
  case true =>
    have hsnd : (AudioManager.freshJoin env s0 g c).2 = .err e :=
      congrArg Prod.snd heq
    rw [(freshJoin_ready env s0 g c hbr).1] at hsnd
    simp at hsnd

/-- Any error outcome of `joinVoiceChannel` leaves no per-guild state. -/
theorem joinVoiceChannel_err_state (env : JoinEnv) (s : AMState) (g : GuildId)
    (c : Nat) (s2 : AMState) (e : JoinError)
    (heq : AudioManager.joinVoiceChannel env s g c = (s2, .err e)) :
    s2.connections.get g = none ∧ s2.players.get g = none ∧
    s2.currentStreams.get g = none ∧ s2.ffmpegProcesses.get g = none ∧
    s2.connectionListeners.get g = none ∧ s2.playerListeners.get g = none := by
  cases hcv : env.channelIsVoice
  case false =>
    simp only [AudioManager.joinVoiceChannel, hcv] at heq
    simp at heq
    obtain ⟨h1, -⟩ := heq
    rw [← h1]
    simp
  case true =>
    cases hcp : (env.permConnect && env.permSpeak)
    case false =>
      simp only [AudioManager.joinVoiceChannel, hcv, hcp] at heq
      simp at heq
      obtain ⟨h1, -⟩ := heq
      rw [← h1]
      simp
    case true =>
      simp only [AudioManager.joinVoiceChannel, hcv, hcp] at heq
      simp at heq
      split at heq
      · split at heq
        · split at heq
          · simp at heq
          · simp at heq
        · exact freshJoin_err_state env _ g c s2 e heq
      · exact freshJoin_err_state env _ g c s2 e heq

/-- C2: every failing `joinVoiceChannel` — invalid target channel, missing
Connect/Speak permission, or the connection not reaching Ready within the
10s timeout — raises the corresponding error, and any error outcome comes
with full rollback: afterwards the tenant has no connection
(`hasConnection` is false), no player, no stream, no subprocess and no
listener registration. -/
theorem joinVoiceChannel_error_rollback (env : JoinEnv) (s : AMState)
    (g : GuildId) (channelId : Nat) :
    (∀ s2 e, AudioManager.joinVoiceChannel env s g channelId = (s2, .err e) →
      AudioManager.hasConnection s2 g = false ∧
      s2.players.get g = none ∧
      s2.currentStreams.get g = none ∧
      s2.ffmpegProcesses.get g = none ∧
      s2.connectionListeners.get g = none ∧
      s2.playerListeners.get g = none) ∧
    (env.channelIsVoice = false →
      (AudioManager.joinVoiceChannel env s g channelId).2 =
        .err .invalidChannel) ∧
    (env.channelIsVoice = true → (env.permConnect && env.permSpeak) = false →
      (AudioManager.joinVoiceChannel env s g channelId).2 =
        .err .permissionDenied) ∧
    (env.channelIsVoice = true → (env.permConnect && env.permSpeak) = true →
      env.becomesReady = false →
      AudioManager.reusableConnection s g channelId = false →
      (AudioManager.joinVoiceChannel env s g channelId).2 =
        .err .connectionTimeout) := by
  refine ⟨?_, ?_, ?_, ?_⟩
  · intro s2 e heq
    obtain ⟨h1, h2, h3, h4, h5, h6⟩ :=
      joinVoiceChannel_err_state env s g channelId s2 e heq
    exact ⟨by simp [AudioManager.hasConnection, h1], h2, h3, h4, h5, h6⟩
  · intro h
    simp [AudioManager.joinVoiceChannel, h]
  · intro h1 h2
    simp [AudioManager.joinVoiceChannel, h1, h2]
  · intro h1 h2 h3 h4
    rcases hconn : s.connections.get g with _ | conn
    · simp [AudioManager.joinVoiceChannel, h1, h2, hconn,
        (freshJoin_timeout env (AudioManager.cleanupGuildResources s g) g
          channelId h3).1]
    · have hncond : ¬(conn.channelId = channelId ∧
          conn.status ≠ ConnStatus.destroyed ∧
          conn.status ≠ ConnStatus.disconnected) := by
        intro hcond
        rw [AudioManager.reusableConnection, hconn] at h4
        simp [hcond.1, hcond.2.1, hcond.2.2] at h4
      simp [AudioManager.joinVoiceChannel, h1, h2, hconn, hncond,
        (freshJoin_timeout env (AudioManager.cleanupGuildResources s g) g
          channelId h3).1]

/-- C3: `joinVoiceChannel` is idempotent for the same target — a live
connection whose join config points at the requested channel and whose
state is neither Destroyed nor Disconnected is reused and returned (same
connection id, no new connection minted, nothing destroyed); a connection
on a different channel or in a Destroyed/Disconnected state is torn down
(its id recorded destroyed) and replaced by a freshly built Ready
connection. -/
theorem joinVoiceChannel_idempotent_same_target (env : JoinEnv) (s : AMState)
    (g : GuildId) (channelId : Nat)
    (hcv : env.channelIsVoice = true)
    (hcp : (env.permConnect && env.permSpeak) = true) :
    (∀ conn, s.connections.get g = some conn →
      conn.channelId = channelId → conn.status ≠ .destroyed →
      conn.status ≠ .disconnected →
        (AudioManager.joinVoiceChannel env s g channelId).2 = .ok conn.connId ∧
        (AudioManager.joinVoiceChannel env s g channelId).1.connections.get g =
          some conn ∧
        (AudioManager.joinVoiceChannel env s g channelId).1.nextConnId =
          s.nextConnId ∧
        (AudioManager.joinVoiceChannel env s g channelId).1.destroyedConns =
          s.destroyedConns) ∧
    (∀ conn, s.connections.get g = some conn →
      ¬(conn.channelId = channelId ∧ conn.status ≠ .destroyed ∧
          conn.status ≠ .disconnected) →
      env.becomesReady = true →
        conn.connId ∈
          (AudioManager.joinVoiceChannel env s g channelId).1.destroyedConns ∧
        (AudioManager.joinVoiceChannel env s g channelId).1.connections.get g =
          some ⟨s.nextConnId, channelId, .ready⟩ ∧
        (AudioManager.joinVoiceChannel env s g channelId).2 =
          .ok s.nextConnId) := by
  constructor
  · intro conn hconn h1 h2 h3
    rcases hp : s.players.get g with _ | pl <;>
      simp [AudioManager.joinVoiceChannel, AudioManager.setupPlayerListeners,
        hcv, hcp, hconn, hp, h1, h2, h3]
  · intro conn hconn hncond hbr
    have hfr := freshJoin_ready env (AudioManager.cleanupGuildResources s g) g
      channelId hbr
    rw [cleanupGuildResources_nextConnId] at hfr
    have hdes := cleanupGuildResources_destroys s g conn hconn
    simp [AudioManager.joinVoiceChannel, hcv, hcp, hconn, hncond,
      hfr.1, hfr.2.1, hfr.2.2.2.2.1, hdes]

/-- Witness for C3: reusing the live Ready connection of a concrete state
that already points at the requested channel. -/
theorem joinVoiceChannel_idempotent_witness :
    (AudioManager.joinVoiceChannel envGood demoPlaying 1 5).2 = .ok 7 ∧
    (AudioManager.joinVoiceChannel envGood demoPlaying 1 5).1.connections.get 1 =
      some ⟨7, 5, .ready⟩ ∧
    (AudioManager.joinVoiceChannel envGood demoPlaying 1 5).1.nextConnId =
      demoPlaying.nextConnId ∧
    (AudioManager.joinVoiceChannel envGood demoPlaying 1 5).1.destroyedConns =
      demoPlaying.destroyedConns :=
  (joinVoiceChannel_idempotent_same_target envGood demoPlaying 1 5 rfl rfl).1
    ⟨7, 5, .ready⟩ rfl rfl (by decide) (by decide)

/-! ## Idle reconciliation: C4 -/

/-- C4: when the player reaches Idle with the stream entry still present
(no explicit stop deleted it): a radio descriptor schedules an automatic
restart after a 1-second (1000 ms) delay, keeps the descriptor, and the
scheduled `restartRadio` replays the same URL; a quran (catalog)
descriptor clears the stream entry, reclaims the subprocess (the
registered process is signalled and dropped) and never schedules a
restart. -/
theorem idle_radio_restarts_quran_clears (s : AMState) (g : GuildId) :
    (∀ st, s.currentStreams.get g = some st → st.type = .radio →
      (AudioManager.idleListener s g).scheduledRestarts =
        (g, 1000) :: s.scheduledRestarts ∧
      (AudioManager.idleListener s g).currentStreams.get g = some st ∧
      ((s.players.get g).isSome = true →
        ∃ st2, (AudioManager.restartRadio (AudioManager.idleListener s g)
            g).currentStreams.get g = some st2 ∧
          st2.type = .radio ∧ st2.url = st.url)) ∧
    (∀ st, s.currentStreams.get g = some st → st.type = .quran →
      (AudioManager.idleListener s g).currentStreams.get g = none ∧
      (AudioManager.idleListener s g).ffmpegProcesses.get g = none ∧
      (∀ p, s.ffmpegProcesses.get g = some p →
        p ∈ (AudioManager.idleListener s g).killed) ∧
      (AudioManager.idleListener s g).scheduledRestarts =
        s.scheduledRestarts) := by
  constructor
  · intro st hst htype
    refine ⟨?_, ?_, ?_⟩
    · simp [AudioManager.idleListener, hst, htype]
    · simp [AudioManager.idleListener, hst, htype]
    · intro hp
      rcases hpl : s.players.get g with _ | pl
      · rw [hpl] at hp
        simp at hp
      · refine ⟨⟨StreamType.radio, st.url, "", "", st.stationInfo⟩, ?_, rfl, rfl⟩
        simp [AudioManager.idleListener, AudioManager.restartRadio,
          AudioManager.playRadio, AudioManager.stopCurrentPlayback,
          AudioManager.cleanupFFmpeg, AudioManager.createFFmpegStream,
          hst, htype, hpl]
  · intro st hst htype
    refine ⟨?_, ?_, ?_, ?_⟩
    · simp [AudioManager.idleListener, AudioManager.cleanupFFmpeg, hst, htype]
    · simp [AudioManager.idleListener, AudioManager.cleanupFFmpeg, hst, htype]
    · intro p hp
      simp [AudioManager.idleListener, AudioManager.cleanupFFmpeg, hst, htype, hp]
      by_cases hk : p ∈ s.killed <;> simp [hk]
    · simp [AudioManager.idleListener, AudioManager.cleanupFFmpeg, hst, htype]

/-! ## Volume persistence: C7 -/

/-- C7 counterexample: the shutdown cleanup path destroys guild 1's session
but, after destroying every session, also clears the `volumes` map, so the
tenant's stored volume (3/2 here) is discarded rather than preserved. -/
theorem shutdown_discards_volume :
    demoVolume.volumes.get 1 = some (3/2) ∧
    (AudioManager.shutdown [1] demoVolume).volumes.get 1 = none := by
  constructor <;> rfl

/-- C7 (amended): every per-guild cleanup path (`cleanupGuildResources`,
reached from explicit leave and from unrecoverable connection loss)
preserves the tenant's volume entry, and the stored value is reapplied
verbatim to the audio resource of the next stream the tenant starts after
leaving and rejoining; only process shutdown clears the volume map. -/
theorem cleanup_preserves_volume (s : AMState) (g : GuildId) :
    (AudioManager.cleanupGuildResources s g).volumes = s.volumes ∧
    (AudioManager.leaveVoiceChannel s g).1.volumes = s.volumes ∧
    (∀ env c u si, env.channelIsVoice = true →
      (env.permConnect && env.permSpeak) = true → env.becomesReady = true →
      (AudioManager.playRadio
        (AudioManager.joinVoiceChannel env
          (AudioManager.leaveVoiceChannel s g).1 g c).1
        g u si).1.players.get g =
          some (.playing ⟨AudioManager.getVolume s g⟩)) := by
  refine ⟨cleanupGuildResources_volumes s g, cleanupGuildResources_volumes s g, ?_⟩
  intro env c u si hcv hcp hbr
  simp [AudioManager.leaveVoiceChannel, AudioManager.joinVoiceChannel,
    AudioManager.freshJoin, AudioManager.setupConnectionListeners,
    AudioManager.setupPlayerListeners, AudioManager.playRadio,
    AudioManager.stopCurrentPlayback, AudioManager.cleanupFFmpeg,
    AudioManager.createFFmpegStream, AudioManager.getVolume,
    hcv, hcp, hbr]

/-! ## Idempotent teardown: C9 -/

/-- C9 counterexample: `leaveVoiceChannel` on a tenant with no registered
session returns `true` — not `false` as the claim states (the try block's
cleanup of a tenant with no resources cannot fail). -/
theorem leave_without_session_returns_true :
    AudioManager.hasConnection emptyState 1 = false ∧
    (AudioManager.leaveVoiceChannel emptyState 1).2 = true :=
  ⟨rfl, rfl⟩

/-- C9 (amended): `leaveVoiceChannel` returns `true` without raising even
with no session, releases all of the tenant's resources regardless of the
session's state, is idempotent (a redundant leave leaves the state
unchanged), and a subsequent join for the tenant succeeds normally. -/
theorem leave_idempotent_and_rejoinable (s : AMState) (g : GuildId) :
    (AudioManager.leaveVoiceChannel s g).2 = true ∧
    AudioManager.hasConnection (AudioManager.leaveVoiceChannel s g).1 g = false ∧
    (AudioManager.leaveVoiceChannel s g).1.players.get g = none ∧
    (AudioManager.leaveVoiceChannel s g).1.currentStreams.get g = none ∧
    (AudioManager.leaveVoiceChannel s g).1.ffmpegProcesses.get g = none ∧
    (AudioManager.leaveVoiceChannel (AudioManager.leaveVoiceChannel s g).1 g).1 =
      (AudioManager.leaveVoiceChannel s g).1 ∧
    (∀ env c, env.channelIsVoice = true →
      (env.permConnect && env.permSpeak) = true → env.becomesReady = true →
      (AudioManager.joinVoiceChannel env
        (AudioManager.leaveVoiceChannel s g).1 g c).2 =
          .ok (AudioManager.leaveVoiceChannel s g).1.nextConnId) := by
  refine ⟨rfl, ?_, ?_, ?_, ?_, ?_, ?_⟩
  · simp [AudioManager.leaveVoiceChannel, AudioManager.hasConnection]
  · simp [AudioManager.leaveVoiceChannel]
  · simp [AudioManager.leaveVoiceChannel]
  · simp [AudioManager.leaveVoiceChannel]
  · simp only [AudioManager.leaveVoiceChannel]
    simp [AudioManager.cleanupGuildResources, AudioManager.cleanupEventListeners,
      AudioManager.cleanupFFmpeg]
  · intro env c hcv hcp hbr
    have hfr := freshJoin_ready env
      (AudioManager.cleanupGuildResources
        (AudioManager.cleanupGuildResources s g) g) g c hbr
    simp [AudioManager.leaveVoiceChannel, AudioManager.joinVoiceChannel,
      hcv, hcp, hfr.1]
